import Mathlib

/-!
Verification of the grimoire-engine-server event-processing pipeline.

This file gives a shallow embedding, in Lean, of the pure computational core
of the repository: webhook signature verification (`app/api/webhook.py`),
diff parsing (`app/services/pr_processor.py`), spell similarity scoring
(`app/services/matcher.py`), execution-status derivation
(`app/services/webhook_logger.py`), patch validation
(`app/services/patch_generator.py`), the exception flow of spell generation
(`app/services/spell_generator.py`), and the control flow of the
`POST /webhook/github` handler.  External effects (database queries, HTTP
calls, the LLM provider) are passed in as explicit oracle arguments; machine
integers are `Nat` with explicit reduction modulo `2 ^ 32` where the hash
arithmetic wraps; byte strings are `List Nat` with entries below 256.

The theorems at the end of the file settle the specification claims about
these functions.
-/

namespace Grimoire

/-! ### 32-bit word helpers and SHA-256 (models Python `hashlib.sha256`) -/

/-- Addition of 32-bit words reduced modulo `2 ^ 32`. -/
def add32 (a b : Nat) : Nat := (a + b) % 4294967296

/-- Right rotation of a 32-bit word by `n` bits (`n < 32`, input below `2 ^ 32`). -/
def rotr32 (n x : Nat) : Nat := x / 2 ^ n + x % 2 ^ n * 2 ^ (32 - n)

/-- Logical right shift of a 32-bit word by `n` bits. -/
def shr32 (n x : Nat) : Nat := x / 2 ^ n

/-- Bitwise complement of a 32-bit word. -/
def not32 (x : Nat) : Nat := 4294967295 - x

/-- The SHA-256 round constants (FIPS 180-4). -/
def shaK : List Nat :=
  [1116352408, 1899447441, 3049323471, 3921009573, 961987163,
   1508970993, 2453635748, 2870763221, 3624381080, 310598401,
   607225278, 1426881987, 1925078388, 2162078206, 2614888103,
   3248222580, 3835390401, 4022224774, 264347078, 604807628,
   770255983, 1249150122, 1555081692, 1996064986, 2554220882,
   2821834349, 2952996808, 3210313671, 3336571891, 3584528711,
   113926993, 338241895, 666307205, 773529912, 1294757372,
   1396182291, 1695183700, 1986661051, 2177026350, 2456956037,
   2730485921, 2820302411, 3259730800, 3345764771, 3516065817,
   3600352804, 4094571909, 275423344, 430227734, 506948616,
   659060556, 883997877, 958139571, 1322822218, 1537002063,
   1747873779, 1955562222, 2024104815, 2227730452, 2361852424,
   2428436474, 2756734187, 3204031479, 3329325298]

/-- The eight working variables of the SHA-256 compression function. -/
structure Sha256State where
  a : Nat
  b : Nat
  c : Nat
  d : Nat
  e : Nat
  f : Nat
  g : Nat
  h : Nat

/-- The SHA-256 initial hash value (FIPS 180-4). -/
def sha256Init : Sha256State :=
  ⟨1779033703, 3144134277, 1013904242, 2773480762,
   1359893119, 2600822924, 528734635, 1541459225⟩

/-- One round of the SHA-256 compression function on a round constant paired
with a message-schedule word. -/
def shaRound (st : Sha256State) (kw : Nat × Nat) : Sha256State :=
  let s1 := rotr32 6 st.e ^^^ rotr32 11 st.e ^^^ rotr32 25 st.e
  let ch := (st.e &&& st.f) ^^^ (not32 st.e &&& st.g)
  let t1 := (st.h + s1 + ch + kw.1 + kw.2) % 4294967296
  let s0 := rotr32 2 st.a ^^^ rotr32 13 st.a ^^^ rotr32 22 st.a
  let maj := (st.a &&& st.b) ^^^ (st.a &&& st.c) ^^^ (st.b &&& st.c)
  let t2 := (s0 + maj) % 4294967296
  ⟨(t1 + t2) % 4294967296, st.a, st.b, st.c, (st.d + t1) % 4294967296, st.e, st.f, st.g⟩

/-- Append the next message-schedule word to a partial schedule. -/
def shaExtendStep (ws : List Nat) : List Nat :=
  let w15 := ws.getD (ws.length - 15) 0
  let w2 := ws.getD (ws.length - 2) 0
  let w16 := ws.getD (ws.length - 16) 0
  let w7 := ws.getD (ws.length - 7) 0
  let s0 := rotr32 7 w15 ^^^ rotr32 18 w15 ^^^ shr32 3 w15
  let s1 := rotr32 17 w2 ^^^ rotr32 19 w2 ^^^ shr32 10 w2
  ws ++ [(w16 + s0 + w7 + s1) % 4294967296]

/-- Extend the 16-word chunk to the full 64-word message schedule by `n`
applications of `shaExtendStep`. -/
def shaSchedule : Nat → List Nat → List Nat
  | 0, ws => ws
  | n + 1, ws => shaSchedule n (shaExtendStep ws)

/-- Group a byte string into big-endian 32-bit words, four bytes per word. -/
def wordsOfBytes : List Nat → List Nat
  | b0 :: b1 :: b2 :: b3 :: rest =>
      (b0 * 16777216 + b1 * 65536 + b2 * 256 + b3) :: wordsOfBytes rest
  | _ => []

/-- The `n`-byte big-endian encoding of `v`. -/
def natToBytes : Nat → Nat → List Nat
  | 0, _ => []
  | n + 1, v => natToBytes n (v / 256) ++ [v % 256]

/-- SHA-256 message padding: a `0x80` byte, zero bytes up to 56 modulo 64, and
the 8-byte big-endian bit length. -/
def padMessage (msg : List Nat) : List Nat :=
  msg ++ [128] ++ List.replicate ((56 + 64 - (msg.length + 1) % 64) % 64) 0
      ++ natToBytes 8 (msg.length * 8)

/-- Split a byte string into 64-byte chunks; the fuel argument bounds the
recursion and any fuel of at least the list's length is exact. -/
def chunksOf64 : Nat → List Nat → List (List Nat)
  | 0, _ => []
  | _, [] => []
  | fuel + 1, b :: bs => (b :: bs).take 64 :: chunksOf64 fuel ((b :: bs).drop 64)

/-- Compress one 64-byte chunk into the running hash state. -/
def compressChunk (st : Sha256State) (chunk : List Nat) : Sha256State :=
  let ws := shaSchedule 48 (wordsOfBytes chunk)
  let r := (shaK.zip ws).foldl shaRound st
  ⟨add32 st.a r.a, add32 st.b r.b, add32 st.c r.c, add32 st.d r.d,
   add32 st.e r.e, add32 st.f r.f, add32 st.g r.g, add32 st.h r.h⟩

/-- Serialize the final hash state as 32 big-endian digest bytes. -/
def sha256StateBytes (st : Sha256State) : List Nat :=
  natToBytes 4 st.a ++ natToBytes 4 st.b ++ natToBytes 4 st.c ++ natToBytes 4 st.d ++
  natToBytes 4 st.e ++ natToBytes 4 st.f ++ natToBytes 4 st.g ++ natToBytes 4 st.h

/-- SHA-256 of a byte string, as the 32-byte digest.  Models Python
`hashlib.sha256(data).digest()`. -/
def sha256 (msg : List Nat) : List Nat :=
  sha256StateBytes
    ((chunksOf64 (padMessage msg).length (padMessage msg)).foldl compressChunk sha256Init)

/-- HMAC-SHA-256 (RFC 2104) of `msg` keyed with `key`, as the 32-byte digest.
Models Python `hmac.new(key, msg, hashlib.sha256).digest()`. -/
def hmacSha256 (key msg : List Nat) : List Nat :=
  let k0 := if key.length > 64 then sha256 key else key
  let k1 := k0 ++ List.replicate (64 - k0.length) 0
  sha256 (k1.map (fun b => b ^^^ 92) ++ sha256 (k1.map (fun b => b ^^^ 54) ++ msg))

/-- The lowercase hexadecimal digit for `n < 16`. -/
def hexDigitChar (n : Nat) : Char :=
  if n < 10 then Char.ofNat (48 + n) else Char.ofNat (87 + n)

/-- The two lowercase hexadecimal digits of a byte. -/
def byteToHex (b : Nat) : List Char := [hexDigitChar (b / 16 % 16), hexDigitChar (b % 16)]

/-- The lowercase hexadecimal rendering of a byte string. -/
def bytesToHex (bs : List Nat) : List Char := bs.flatMap byteToHex

/-- The hex HMAC-SHA-256 digest, as a character list.  Models Python
`hmac.new(secret, payload, hashlib.sha256).hexdigest()` in
`app/api/webhook.py`. -/
def hmacSha256Hex (key msg : List Nat) : List Char := bytesToHex (hmacSha256 key msg)

/-! ### `validate_signature` (`app/api/webhook.py`, lines 42-74)

The signature header is a character list (`none` models a Python `None`
argument); the secret is modelled by its UTF-8 byte sequence, matching
`secret.encode("utf-8")` in the source. -/

/-- Model of `validate_signature(payload, signature, secret)`: reject a missing,
empty, or non-`sha256=`-prefixed header, otherwise compare the hex HMAC digest
with the rest of the header (`hmac.compare_digest` is an equality test). -/
def validateSignature (payload : List Nat) (signature : Option (List Char))
    (secret : List Nat) : Bool :=
  match signature with
  | none => false
  | some sig =>
      if sig.isEmpty || !("sha256=".toList.isPrefixOf sig) then false
      else hmacSha256Hex secret payload == sig.drop 7

/-! ### Python string helpers

The services below use CPython string operations; these helpers model them
over explicit character lists (for the ASCII inputs the services handle). -/

/-- The whitespace class of Python `str.split()` / `str.strip()` / `\s`
(ASCII part). -/
def pyIsSpace (c : Char) : Bool :=
  c == ' ' || c == '\t' || c == '\n' || c == '\r' || c == '\x0b' || c == '\x0c'

/-- Python truthiness of an optional string (`None` and `""` are falsy). -/
def truthyStr : Option String → Bool
  | none => false
  | some s => !(s == "")

/-- Python truthiness of an optional integer (`None` and `0` are falsy). -/
def truthyInt : Option Int → Bool
  | none => false
  | some n => !(n == 0)

/-- Python truthiness of an optional header value given as a character list. -/
def truthyChars : Option (List Char) → Bool
  | none => false
  | some cs => !cs.isEmpty

/-- Split into the maximal runs of characters that are not separators,
dropping empty pieces; `acc` holds the current run reversed.  With
`sep := pyIsSpace` this is Python `str.split()` with no arguments. -/
def splitRuns (sep : Char → Bool) : List Char → List Char → List (List Char)
  | [], acc => if acc.isEmpty then [] else [acc.reverse]
  | c :: cs, acc =>
      if sep c then
        if acc.isEmpty then splitRuns sep cs [] else acc.reverse :: splitRuns sep cs []
      else splitRuns sep cs (c :: acc)

/-- Python `str.split()` with no arguments (whitespace runs, no empties). -/
def pySplitWs (cs : List Char) : List (List Char) := splitRuns pyIsSpace cs []

/-- Python `text.split("\n")`: split at every newline, keeping empty pieces. -/
def splitNl : List Char → List Char → List (List Char)
  | [], acc => [acc.reverse]
  | c :: cs, acc => if c == '\n' then acc.reverse :: splitNl cs [] else splitNl cs (c :: acc)

/-- Python `str.strip()` (whitespace removed from both ends). -/
def pyStrip (cs : List Char) : List Char :=
  ((cs.dropWhile pyIsSpace).reverse.dropWhile pyIsSpace).reverse

/-- Python `str.lower()` (ASCII case folding). -/
def pyLower (s : String) : String := String.mk (s.toList.map Char.toLower)

/-- Python `needle in hay` substring containment. -/
def hasSubstring (needle : List Char) : List Char → Bool
  | [] => needle.isEmpty
  | c :: t => needle.isPrefixOf (c :: t) || hasSubstring needle t

/-! ### `PRProcessor._parse_diff` and `process_pr_event`
(`app/services/pr_processor.py`) -/

/-- The body of the parse loop (`_parse_diff`, lines 312-321): a line starting
with `diff --git` that whitespace-splits into at least four tokens contributes
its fourth token with the first two characters removed. -/
def parseDiffLineStep (acc : List (List Char)) (line : List Char) : List (List Char) :=
  if "diff --git".toList.isPrefixOf line then
    let parts := pySplitWs line
    if 4 ≤ parts.length then acc ++ [(parts.getD 3 []).drop 2] else acc
  else acc

/-- Model of `PRProcessor._parse_diff`: scan the diff line by line and collect
the changed-file paths from the `diff --git` headers. -/
def parseDiff (diff : String) : List String :=
  ((splitNl diff.toList []).foldl parseDiffLineStep []).map fun cs => String.mk cs

/-- Specification-side description of one line's contribution, written from
the claim: a line that begins with the literal `diff --git` token and splits
on whitespace into at least four tokens yields the fourth token with its
two-character path-type prefix stripped; other lines yield nothing. -/
def headerPathOfLine (line : List Char) : Option (List Char) :=
  if "diff --git".toList.isPrefixOf line ∧ 4 ≤ (pySplitWs line).length then
    some ((pySplitWs line).getD 3 [] |>.drop 2)
  else none

/-- The result dictionary of `PRProcessor.process_pr_event` (a Python dict
whose key set varies; absent keys are `none`). -/
structure PRResult where
  repo : Option String := none
  pr_number : Option Int := none
  files_changed : Option (List String) := none
  status : String := ""
  error : Option String := none
deriving DecidableEq, Repr

/-- Model of `process_pr_event(payload)` with the GitHub diff fetch passed in
as an oracle (`none` models both a `None` return from `fetch_pr_diff` and the
HTTP/network failures it converts to `None`). -/
structure WebhookPayload where
  action : Option String := none
  repo_full_name : Option String := none
  pr_number : Option Int := none
deriving DecidableEq, Repr

/-- Model of `PRProcessor.process_pr_event` (lines 105-156): reject payloads
with a missing/falsy repository or PR number, report a fetch failure, or parse
the fetched diff. -/
def processPrEvent (payload : WebhookPayload) (fetchedDiff : Option String) : PRResult :=
  if !truthyStr payload.repo_full_name || !truthyInt payload.pr_number then
    { status := "error", error := some "Missing repository or PR number in payload" }
  else
    match fetchedDiff with
    | none =>
        { repo := payload.repo_full_name, pr_number := payload.pr_number,
          status := "error", error := some "Failed to fetch PR diff" }
    | some diff =>
        { repo := payload.repo_full_name, pr_number := payload.pr_number,
          files_changed := some (parseDiff diff), status := "success" }

/-! ### `MatcherService` similarity scoring (`app/services/matcher.py`)

Scores are modelled over `ℚ`; the source computes the same ratios in IEEE
doubles, and every concrete instance used below is exact in both. -/

/-- The fixed stop-word list of `_extract_keywords`. -/
def stopWords : List String :=
  ["a", "an", "and", "are", "as", "at", "be", "by", "for",
   "from", "has", "he", "in", "is", "it", "its", "of", "on",
   "that", "the", "to", "was", "will", "with"]

/-- A word character of the regex `\b\w+\b` (ASCII part). -/
def isWordChar (c : Char) : Bool := c.isAlphanum || c == '_'

/-- Model of `_extract_keywords` (lines 421-459): lowercase the text, take the
maximal word-character runs, and keep those that are neither stop words nor of
length at most 2, as a set. -/
def extractKeywords (text : String) : Finset String :=
  ((splitRuns (fun c => !isWordChar c) (text.toList.map Char.toLower) []).map
      (fun cs => String.mk cs)
    |>.filter fun w => !(stopWords.contains w) && decide (2 < w.length)).toFinset

/-- The error-characteristics dictionary produced by
`_extract_error_characteristics` (all fields lowercase, stripped strings). -/
structure ErrorInfo where
  error_type : String
  message : String
  context : String
deriving DecidableEq, Repr

/-- The `Spell` database row (`app/models/spell.py`), restricted to the
columns the core pipeline reads. -/
structure Spell where
  id : Int
  title : String
  description : String
  error_type : String
  error_pattern : String
  solution_code : String
  tags : String
deriving DecidableEq, Repr

/-- Model of `MatcherService._compute_similarity` (lines 324-419): Jaccard
coefficient of the two keyword sets with a flat `0.2` boost on an exact
(lowercased, truthy) error-type match, capped at `1`; an empty keyword set on
either side short-circuits to `0` before the boost. -/
def computeSimilarity (error : ErrorInfo) (spell : Spell) : ℚ :=
  let errorKeywords := extractKeywords (error.message ++ " " ++ error.context)
  let spellKeywords := extractKeywords (pyLower spell.description ++ " " ++ pyLower spell.error_pattern)
  if errorKeywords = ∅ ∨ spellKeywords = ∅ then 0
  else
    let matching := errorKeywords ∩ spellKeywords
    let total := errorKeywords ∪ spellKeywords
    let baseScore : ℚ := if total.card = 0 then 0 else (matching.card : ℚ) / (total.card : ℚ)
    let boost : ℚ :=
      if error.error_type ≠ "" ∧ pyLower spell.error_type = error.error_type then 1 / 5 else 0
    min (baseScore + boost) 1

/-- The error-side keyword set of `_compute_similarity` (lines 377-379). -/
def errorKeywordsOf (error : ErrorInfo) : Finset String :=
  extractKeywords (error.message ++ " " ++ error.context)

/-- The spell-side keyword set of `_compute_similarity` (lines 382-384). -/
def spellKeywordsOf (spell : Spell) : Finset String :=
  extractKeywords (pyLower spell.description ++ " " ++ pyLower spell.error_pattern)

/-- The Jaccard coefficient of two keyword sets (`0` on an empty union). -/
def jaccardScore (A B : Finset String) : ℚ :=
  if (A ∪ B).card = 0 then 0 else ((A ∩ B).card : ℚ) / ((A ∪ B).card : ℚ)

/-- The error-type boost of `_compute_similarity` (lines 401-403): `0.2` when
the normalized type is truthy and equals the lowercased spell tag. -/
def typeBoost (error : ErrorInfo) (spell : Spell) : ℚ :=
  if error.error_type ≠ "" ∧ pyLower spell.error_type = error.error_type then 1 / 5 else 0

/-! ### `_determine_status` (`app/services/webhook_logger.py`, lines 73-135) -/

/-- Model of `_determine_status(pr_processing_result, matched_spells,
error_message)`: `error` on a truthy error message or an `error` PR-processing
status, else `partial_success` exactly on an empty matched list, else
`success`.  (A present `PRResult` always has a `status` key, so Python dict
truthiness coincides with `Option` presence here.) -/
def determineStatus (prProcessingResult : Option PRResult) (matchedSpells : List Int)
    (errorMessage : Option String) : String :=
  if truthyStr errorMessage then "error"
  else if (match prProcessingResult with
           | some pr => pr.status == "error"
           | none => false) then "error"
  else if matchedSpells.isEmpty then "partial_success"
  else "success"

/-- The error message the webhook handler passes to the execution log
(`app/api/webhook.py`, lines 511-514): the PR result's `error` field when its
status is `error`, otherwise `None`. -/
def runErrorMessage (prProcessingResult : Option PRResult) : Option String :=
  match prProcessingResult with
  | some pr => if pr.status == "error" then pr.error else none
  | none => none

/-- The audit status `create_execution_log` derives for one webhook run
(`status=None` path: `_determine_status` on the data captured by the
handler). -/
def auditStatus (prProcessingResult : Option PRResult) (matchedSpells : List Int) : String :=
  determineStatus prProcessingResult matchedSpells (runErrorMessage prProcessingResult)

/-! ### `PatchGeneratorService._validate_patch`
(`app/services/patch_generator.py`, lines 212-269) -/

/-- The `AdaptationConstraints` schema (`app/models/spell_application.py`,
lines 99-121) with its field defaults. -/
structure AdaptationConstraints where
  max_files : Nat := 3
  excluded_patterns : List String := ["package.json", "*.lock"]
  preserve_style : Bool := true
deriving DecidableEq, Repr

/-- One attempt of the regex `diff --git a/([\S]+) b/([\S]+)` at the head of
`cs`: on success, the post-image (`b/`) path and the remainder after the
match. -/
def matchBPath (cs : List Char) : Option (List Char × List Char) :=
  if "diff --git a/".toList.isPrefixOf cs then
    let rest := cs.drop 13
    let xs := rest.takeWhile fun c => !pyIsSpace c
    if xs.isEmpty then none
    else
      let rest2 := rest.drop xs.length
      if " b/".toList.isPrefixOf rest2 then
        let ys := (rest2.drop 3).takeWhile fun c => !pyIsSpace c
        if ys.isEmpty then none else some (ys, rest2.drop (3 + ys.length))
      else none
  else none

/-- Left-to-right, non-overlapping scan of `re.finditer` for the pattern
above; the fuel argument bounds the scan and any fuel of at least the list's
length is exact (each step consumes at least one character). -/
def scanBPaths : Nat → List Char → List (List Char)
  | 0, _ => []
  | fuel + 1, cs =>
      match matchBPath cs with
      | some (y, rem) => y :: scanBPaths fuel rem
      | none =>
          match cs with
          | [] => []
          | _ :: t => scanBPaths fuel t

/-- The post-image file paths appearing in the patch's diff headers
(`_validate_patch`, lines 253-259). -/
def patchBPaths (patch : String) : List String :=
  (scanBPaths patch.toList.length patch.toList).map fun cs => String.mk cs

/-- The header-format validation message of `_validate_patch` (line 239). -/
def headerMsg : String := "Patch must start with valid git diff header (diff --git)"

/-- The diff-markers validation message of `_validate_patch` (line 246). -/
def markersMsg : String := "Patch must contain valid unified diff markers (+++, ---, @@)"

/-- The max-files validation message of `_validate_patch` (line 250). -/
def maxFilesMsg (fileCount limit : Nat) : String :=
  "Patch modifies " ++ toString fileCount ++ " files, exceeds limit of " ++ toString limit

/-- The undeclared-files validation message of `_validate_patch` (line 267). -/
def missingFilesMsg (missing : List String) : String :=
  "Patch contains files not listed in files_touched: " ++ String.intercalate ", " missing

/-- The patch-header paths that are not in the declared touched-file list
(`patch_files - files_touched_set`, line 265), in first-occurrence order. -/
def undeclaredPaths (patch : String) (files_touched : List String) : List String :=
  ((patchBPaths patch).filter fun f => !(files_touched.contains f)).dedup

/-- Model of `_validate_patch(patch, files_touched, constraints)`: the
validation verdict and the error message of the first failing check.  (The
fourth message renders the undeclared paths in first-occurrence order; the
source iterates a Python set there, whose order is unspecified.) -/
def validatePatch (patch : String) (files_touched : List String)
    (constraints : AdaptationConstraints) : Bool × Option String :=
  if !("diff --git".toList.isPrefixOf (pyStrip patch.toList)) then
    (false, some headerMsg)
  else if !(hasSubstring "+++".toList patch.toList && hasSubstring "---".toList patch.toList
            && hasSubstring "@@".toList patch.toList) then
    (false, some markersMsg)
  else if constraints.max_files < files_touched.length then
    (false, some (maxFilesMsg files_touched.length constraints.max_files))
  else if !(undeclaredPaths patch files_touched).isEmpty then
    (false, some (missingFilesMsg (undeclaredPaths patch files_touched)))
  else (true, none)

/-! ### `SpellGeneratorService` exception flow
(`app/services/spell_generator.py`)

Database effects are oracle arguments; `Except` models Python exception
propagation, so a `.error` result of a `...Body` function is an exception
leaving the corresponding `try` block. -/

/-- A database exception; `integrityViolation` models
`sqlalchemy.exc.IntegrityError` (a uniqueness-constraint violation on
insert). -/
inductive DbError
  | integrityViolation
  | otherFailure
deriving DecidableEq, Repr

/-- The `try` block of `_get_or_create_system_user` (lines 339-370): the inner
insert handler logs and re-raises an `IntegrityError`. -/
def getOrCreateSystemUserBody (existingUser : Option Int)
    (insertUser : Except DbError Int) : Except DbError (Option Int) :=
  match existingUser with
  | some uid => .ok (some uid)
  | none =>
      match insertUser with
      | .ok uid => .ok (some uid)
      | .error e => .error e

/-- Model of `_get_or_create_system_user`: its catch-all handler (lines
372-377) converts any exception to `None`. -/
def getOrCreateSystemUser (existingUser : Option Int)
    (insertUser : Except DbError Int) : Option Int :=
  match getOrCreateSystemUserBody existingUser insertUser with
  | .ok r => r
  | .error _ => none

/-- The `try` block of `_get_or_create_repository` (lines 271-319): lookup,
then system-user resolution, then the insert whose inner handler re-raises an
`IntegrityError` (line 308). -/
def getOrCreateRepositoryBody (existingRepo sysUser : Option Int)
    (insertRepo : Except DbError Int) : Except DbError (Option Int) :=
  match existingRepo with
  | some rid => .ok (some rid)
  | none =>
      match sysUser with
      | none => .ok none
      | some _ =>
          match insertRepo with
          | .ok rid => .ok (some rid)
          | .error e => .error e

/-- Model of `_get_or_create_repository`: the pre-checks on the PR context
(lines 265-267), the `try` body, and the catch-all `except Exception` handler
(lines 321-327) that converts any exception — including the re-raised
uniqueness violation — to `None`. -/
def getOrCreateRepository (prContext : Option PRResult) (existingRepo existingUser : Option Int)
    (insertUser insertRepo : Except DbError Int) : Option Int :=
  match prContext with
  | none => none
  | some ctx =>
      if !truthyStr ctx.repo then none
      else
        match getOrCreateRepositoryBody existingRepo
            (getOrCreateSystemUser existingUser insertUser) insertRepo with
        | .ok r => r
        | .error _ => none

/-- Model of `generate_spell` (lines 108-172), with LLM content generation
elided (the LLM service degrades internally and the claim concerns the
repository insert): the result is `Except`-valued so that an exception
escaping the function would be a `.error`; the catch-all at lines 163-172
converts every exception raised in the body to a `None` result. -/
def generateSpell (autoCreateEnabled : Bool) (prContext : Option PRResult)
    (existingRepo existingUser : Option Int)
    (insertUser insertRepo insertSpell : Except DbError Int) : Except DbError (Option Int) :=
  if !autoCreateEnabled then .ok none
  else
    match (match getOrCreateRepository prContext existingRepo existingUser insertUser insertRepo with
           | none => Except.ok none
           | some _ =>
               match insertSpell with
               | .ok sid => Except.ok (some sid)
               | .error e => Except.error e
           : Except DbError (Option Int)) with
    | .ok r => .ok r
    | .error _ => .ok none

/-! ### The `POST /webhook/github` handler (`app/api/webhook.py`,
lines 146-569)

External effects are oracle arguments: `parsedBody` is the combined UTF-8
decode / form-field unwrap / JSON parse of the raw body (a `.error` carries
the HTTP 400 the handler raises); `fetchedDiff` is the GitHub diff fetch;
`matcherResult` is `MatcherService.match_spells` (which returns `[]` rather
than raising); `generatorResult` is `SpellGeneratorService.generate_spell`
(which returns `None` rather than raising).  The signature-validation call is
commented out in the source (lines 300-313), and this model mirrors that: the
signature header is only checked for presence. -/

/-- The JSON body of a 200 response from the handler (lines 562-569). -/
structure WebhookResponse where
  status : String
  event : Option String
  action : Option String
  pr_processing : Option PRResult
  matched_spells : List Int
  auto_generated_spell_id : Option Int
deriving DecidableEq, Repr

/-- The handler outcome: an `HTTPException` with a status code and detail, or
a 200 response. -/
inductive WebhookResult
  | httpError (code : Nat) (detail : String)
  | ok (response : WebhookResponse)
deriving DecidableEq, Repr

/-- Model of `github_webhook`. -/
def githubWebhook (webhookSecret : Option String) (signatureHeader : Option (List Char))
    (eventHeader : Option String) (parsedBody : Except (Nat × String) WebhookPayload)
    (fetchedDiff : Option String) (matcherResult : List Int)
    (generatorResult : Option Int) : WebhookResult :=
  if !truthyStr webhookSecret then .httpError 500 "Webhook secret not configured"
  else if !truthyChars signatureHeader then .httpError 401 "Missing signature header"
  else
    match parsedBody with
    | .error (code, detail) => .httpError code detail
    | .ok payload =>
        let stages : Option PRResult × List Int × Option Int :=
          if eventHeader = some "push" ∨ eventHeader = some "pull_request" then
            let pr := processPrEvent payload fetchedDiff
            if pr.status == "success" then
              if matcherResult.isEmpty then
                match generatorResult with
                | some sid => (some pr, [sid], some sid)
                | none => (some pr, [], none)
              else (some pr, matcherResult, none)
            else (some pr, [], none)
          else (none, [], none)
        .ok { status := "success", event := eventHeader, action := payload.action,
              pr_processing := stages.1, matched_spells := stages.2.1,
              auto_generated_spell_id := stages.2.2 }

/-! ## Theorems -/

/-! ### Helper lemmas -/

theorem natToBytes_length (n v : Nat) : (natToBytes n v).length = n := by
  induction n generalizing v with
  | zero => rfl
  | succ k ih => simp [natToBytes, ih]

theorem sha256_length (msg : List Nat) : (sha256 msg).length = 32 := by
  simp [sha256, sha256StateBytes, natToBytes_length]

theorem bytesToHex_length (bs : List Nat) : (bytesToHex bs).length = 2 * bs.length := by
  induction bs with
  | nil => rfl
  | cons b t ih =>
      simp only [bytesToHex, List.flatMap_cons, List.length_append, byteToHex,
        List.length_cons, List.length_nil, List.length_cons] at *
      omega

theorem hmacSha256Hex_length (key msg : List Nat) :
    (hmacSha256Hex key msg).length = 64 := by
  simp [hmacSha256Hex, bytesToHex_length, hmacSha256, sha256_length]

theorem truthyStr_iff (o : Option String) : truthyStr o = true ↔ ∃ s, o = some s ∧ s ≠ "" := by
  cases o <;> simp [truthyStr]

theorem prStatusError_iff (pr : Option PRResult) :
    (match pr with
     | some r => r.status == "error"
     | none => false) = true ↔ ∃ r, pr = some r ∧ r.status = "error" := by
  cases pr <;> simp

/-! ### C7 — signature verification -/

/-- C7: `validate_signature` returns `True` exactly when the header is the
literal `sha256=` followed by the hex HMAC-SHA256 digest of the payload bytes
keyed with the secret; a missing (`None`) header is rejected.  Rejection of a
header lacking the prefix happens in the branch taken before the digest
comparison, and the function is total (never throws). -/
theorem validateSignature_some_eq (payload secret : List Nat) (sig : List Char) :
    validateSignature payload (some sig) secret =
      if sig.isEmpty || !("sha256=".toList.isPrefixOf sig) then false
      else hmacSha256Hex secret payload == sig.drop 7 := rfl

theorem validateSignature_correct (payload secret : List Nat) (sig : List Char) :
    validateSignature payload none secret = false ∧
    (validateSignature payload (some sig) secret = true ↔
      sig = "sha256=".toList ++ hmacSha256Hex secret payload) := by
  refine ⟨rfl, ?_, ?_⟩
  · intro h
    rw [validateSignature_some_eq] at h
    by_cases hc : (sig.isEmpty || !("sha256=".toList.isPrefixOf sig)) = true
    · rw [if_pos hc] at h
      exact absurd h (by simp)
    · rw [Bool.not_eq_true] at hc
      rw [hc] at h
      simp only [Bool.false_eq_true, if_false, beq_iff_eq] at h
      rcases Bool.or_eq_false_iff.mp hc with ⟨-, hpre⟩
      have hpre' : "sha256=".toList.isPrefixOf sig = true := by
        cases hb : "sha256=".toList.isPrefixOf sig
        · rw [hb] at hpre
          exact absurd hpre (by simp)
        · rfl
      rcases List.isPrefixOf_iff_prefix.mp hpre' with ⟨t, ht⟩
      have hd : sig.drop 7 = t := by
        rw [← ht]
        exact List.drop_left "sha256=".toList t
      rw [hd] at h
      rw [← ht, h]
  · intro h
    subst h
    have hpre : "sha256=".toList.isPrefixOf ("sha256=".toList ++ hmacSha256Hex secret payload) :=
      List.isPrefixOf_iff_prefix.mpr (List.prefix_append _ _)
    have hd : ("sha256=".toList ++ hmacSha256Hex secret payload).drop 7
        = hmacSha256Hex secret payload :=
      List.drop_left "sha256=".toList _
    rw [validateSignature_some_eq, hpre, hd]
    simp

/-- Concrete check that a correctly signed request is accepted: the theorem
above applied to an explicit payload, secret, and matching header. -/
theorem validateSignature_correct_example :
    validateSignature [1, 2, 3] (some ("sha256=".toList ++ hmacSha256Hex [9] [1, 2, 3])) [9] = true :=
  (validateSignature_correct [1, 2, 3] [9] _).2.mpr rfl

/-! ### C3 — execution status derivation -/

/-- C3: `_determine_status` is a total function of the optional error message,
the optional PR-processing outcome, and the matched-spell list: it returns
`error` exactly when the error message is truthy (present and non-empty) or
the outcome's own status is `error`; otherwise `partial_success` exactly when
the matched list is empty; otherwise `success`. -/
theorem determineStatus_correct (pr : Option PRResult) (matched : List Int) (em : Option String) :
    (determineStatus pr matched em = "error" ∨
      determineStatus pr matched em = "partial_success" ∨
      determineStatus pr matched em = "success") ∧
    (determineStatus pr matched em = "error" ↔
      (∃ s, em = some s ∧ s ≠ "") ∨ ∃ r, pr = some r ∧ r.status = "error") ∧
    (determineStatus pr matched em = "partial_success" ↔
      ¬((∃ s, em = some s ∧ s ≠ "") ∨ ∃ r, pr = some r ∧ r.status = "error") ∧ matched = []) ∧
    (determineStatus pr matched em = "success" ↔
      ¬((∃ s, em = some s ∧ s ≠ "") ∨ ∃ r, pr = some r ∧ r.status = "error") ∧ matched ≠ []) := by
  by_cases h1 : truthyStr em = true
  · have h1p := (truthyStr_iff em).mp h1
    simp [determineStatus, h1, h1p]
  · by_cases h2 : (match pr with
      | some r => r.status == "error"
      | none => false) = true
    · have h2p := (prStatusError_iff pr).mp h2
      simp [determineStatus, h1, h2, h2p]
    · have h1p : ¬∃ s, em = some s ∧ s ≠ "" := fun hc => h1 ((truthyStr_iff em).mpr hc)
      have h2p : ¬∃ r, pr = some r ∧ r.status = "error" :=
        fun hc => h2 ((prStatusError_iff pr).mpr hc)
      by_cases h3 : matched.isEmpty
      · have h3p := List.isEmpty_iff.mp h3
        simp [determineStatus, h1, h2, h3, h1p, h2p, h3p]
      · have h3p : matched ≠ [] := fun hc => h3 (List.isEmpty_iff.mpr hc)
        simp [determineStatus, h1, h2, h3, h1p, h2p, h3p]

/-! ### C6 — diff parsing -/

theorem foldl_parseDiffLineStep (ls : List (List Char)) (acc : List (List Char)) :
    ls.foldl parseDiffLineStep acc = acc ++ ls.filterMap headerPathOfLine := by
  induction ls generalizing acc with
  | nil => simp
  | cons l t ih =>
      rw [List.foldl_cons, ih, List.filterMap_cons]
      simp only [parseDiffLineStep, headerPathOfLine]
      by_cases h1 : "diff --git".toList.isPrefixOf l
      · by_cases h2 : 4 ≤ (pySplitWs l).length
        · rw [if_pos h1, if_pos h2, if_pos (And.intro h1 h2)]
          simp
        · rw [if_pos h1, if_neg h2, if_neg fun hc => h2 hc.2]
      · rw [if_neg h1, if_neg fun hc => h1 hc.1]

/-- C6: `_parse_diff` returns exactly the ordered list of fourth whitespace
tokens, with their two-character prefix stripped, of the lines beginning with
the literal `diff --git` token (`headerPathOfLine` states that contribution in
the claim's terms); all other lines contribute nothing, and the empty diff
yields the empty list rather than an error. -/
theorem parseDiff_correct :
    (∀ diff : String, parseDiff diff =
      ((splitNl diff.toList []).filterMap headerPathOfLine).map fun cs => String.mk cs) ∧
    parseDiff "" = [] := by
  constructor
  · intro diff
    unfold parseDiff
    rw [foldl_parseDiffLineStep]
    simp
  · rfl

/-! ### C2 — similarity scoring -/

theorem computeSimilarity_eq (e : ErrorInfo) (s : Spell) :
    computeSimilarity e s =
      if errorKeywordsOf e = ∅ ∨ spellKeywordsOf s = ∅ then 0
      else min (jaccardScore (errorKeywordsOf e) (spellKeywordsOf s) + typeBoost e s) 1 := by
  unfold computeSimilarity errorKeywordsOf spellKeywordsOf jaccardScore typeBoost
  rfl

/-- C2 counterexample: identical keyword sets give score `1.0` even though the
error types differ, refuting the claim that a score of `1.0` requires the
error types to match. -/
theorem computeSimilarity_one_without_type_match :
    computeSimilarity ⟨"typeerror", "undefined variable foo", ""⟩
        ⟨1, "Fix", "undefined variable foo", "SyntaxError", "", "", ""⟩ = 1 ∧
    pyLower "SyntaxError" ≠ "typeerror" := by
  constructor
  · have hset : spellKeywordsOf ⟨1, "Fix", "undefined variable foo", "SyntaxError", "", "", ""⟩ =
        errorKeywordsOf ⟨"typeerror", "undefined variable foo", ""⟩ := by decide
    have hcard : (errorKeywordsOf ⟨"typeerror", "undefined variable foo", ""⟩).card = 3 := by
      decide
    have hne : ¬(errorKeywordsOf ⟨"typeerror", "undefined variable foo", ""⟩ = ∅) := by decide
    rw [computeSimilarity_eq, hset, if_neg (by simp [hne])]
    unfold jaccardScore typeBoost
    rw [Finset.inter_self, Finset.union_self, hcard]
    rw [if_neg (by norm_num), if_neg (by decide)]
    norm_num
  · decide

/-- C2 (amended): the similarity score is `0` whenever either keyword set is
empty (the boost is not applied there); otherwise it is the Jaccard
coefficient plus the error-type boost, capped at `1`; it always lies in
`[0, 1]`, and it equals `1` exactly when both keyword sets are non-empty and
the boosted Jaccard coefficient reaches `1`. -/
theorem computeSimilarity_correct (e : ErrorInfo) (s : Spell) :
    computeSimilarity e s =
      (if errorKeywordsOf e = ∅ ∨ spellKeywordsOf s = ∅ then 0
       else min (jaccardScore (errorKeywordsOf e) (spellKeywordsOf s) + typeBoost e s) 1) ∧
    0 ≤ computeSimilarity e s ∧ computeSimilarity e s ≤ 1 ∧
    (computeSimilarity e s = 1 ↔
      errorKeywordsOf e ≠ ∅ ∧ spellKeywordsOf s ≠ ∅ ∧
      1 ≤ jaccardScore (errorKeywordsOf e) (spellKeywordsOf s) + typeBoost e s) := by
  have heq := computeSimilarity_eq e s
  have hj : 0 ≤ jaccardScore (errorKeywordsOf e) (spellKeywordsOf s) := by
    unfold jaccardScore
    split_ifs
    · exact le_refl 0
    · exact div_nonneg (Nat.cast_nonneg _) (Nat.cast_nonneg _)
  have hb : 0 ≤ typeBoost e s := by
    unfold typeBoost
    split_ifs
    · norm_num
    · exact le_refl 0
  refine ⟨heq, ?_, ?_, ?_⟩ <;> rw [heq]
  · split_ifs
    · exact le_refl 0
    · exact le_min (add_nonneg hj hb) (by norm_num)
  · split_ifs
    · norm_num
    · exact min_le_right _ _
  · split_ifs with h
    · constructor
      · intro h0
        exact absurd h0 (by norm_num)
      · rintro ⟨h1, h2, -⟩
        rcases h with h | h
        · exact absurd h h1
        · exact absurd h h2
    · push_neg at h
      constructor
      · intro hm
        exact ⟨h.1, h.2, min_eq_right_iff.mp hm⟩
      · rintro ⟨-, -, hx⟩
        exact min_eq_right_iff.mpr hx

/-! ### C4 — patch validation -/

theorem undeclaredPaths_eq_nil_iff (patch : String) (files : List String) :
    undeclaredPaths patch files = [] ↔ ∀ f ∈ patchBPaths patch, f ∈ files := by
  unfold undeclaredPaths
  rw [List.dedup_eq_nil, List.filter_eq_nil_iff]
  simp

theorem string_ne_of_getD (s t : String) (i : Nat)
    (h : s.data.getD i ' ' ≠ t.data.getD i ' ') : s ≠ t :=
  fun he => h (by rw [he])

theorem getD_append_left (l l' : List Char) (n : Nat) (h : n < l.length) (d : Char) :
    (l ++ l').getD n d = l.getD n d := by
  simp [List.getD, List.getElem?_append, h]

theorem maxFilesMsg_getD7 (n m : Nat) : (maxFilesMsg n m).data.getD 7 ' ' = 'o' := by
  have hdata : (maxFilesMsg n m).data = "Patch modifies ".data ++
      ((toString n).data ++ (" files, exceeds limit of ".data ++ (toString m).data)) := by
    simp [maxFilesMsg, String.data_append, List.append_assoc]
  rw [hdata, getD_append_left _ _ _ (by decide)]
  decide

theorem maxFilesMsg_getD6 (n m : Nat) : (maxFilesMsg n m).data.getD 6 ' ' = 'm' := by
  have hdata : (maxFilesMsg n m).data = "Patch modifies ".data ++
      ((toString n).data ++ (" files, exceeds limit of ".data ++ (toString m).data)) := by
    simp [maxFilesMsg, String.data_append, List.append_assoc]
  rw [hdata, getD_append_left _ _ _ (by decide)]
  decide

theorem missingFilesMsg_getD6 (ms : List String) : (missingFilesMsg ms).data.getD 6 ' ' = 'c' := by
  have hdata : (missingFilesMsg ms).data =
      "Patch contains files not listed in files_touched: ".data
        ++ (String.intercalate ", " ms).data := by
    simp [missingFilesMsg, String.data_append]
  rw [hdata, getD_append_left _ _ _ (by decide)]
  decide

/-- C4 (amended): `_validate_patch` accepts exactly when the patch — after the
source's `strip()` of surrounding whitespace — begins with the literal
`diff --git` token, the patch contains the `+++`, `---` and `@@` markers, the
declared touched-file list has at most `max_files` entries, and every
post-image header path is declared; each of the four failure cases yields its
own message, and the four messages are pairwise distinct. -/
theorem validatePatch_correct (patch : String) (files : List String) (c : AdaptationConstraints) :
    ((validatePatch patch files c).1 = true ↔
      ("diff --git".toList.isPrefixOf (pyStrip patch.toList) = true ∧
       (hasSubstring "+++".toList patch.toList = true ∧
        hasSubstring "---".toList patch.toList = true ∧
        hasSubstring "@@".toList patch.toList = true) ∧
       files.length ≤ c.max_files ∧
       ∀ f ∈ patchBPaths patch, f ∈ files)) ∧
    ((validatePatch patch files c).2 =
      if ¬("diff --git".toList.isPrefixOf (pyStrip patch.toList) = true) then some headerMsg
      else if ¬(hasSubstring "+++".toList patch.toList = true ∧
                hasSubstring "---".toList patch.toList = true ∧
                hasSubstring "@@".toList patch.toList = true) then some markersMsg
      else if ¬(files.length ≤ c.max_files) then some (maxFilesMsg files.length c.max_files)
      else if ¬(∀ f ∈ patchBPaths patch, f ∈ files) then
        some (missingFilesMsg (undeclaredPaths patch files))
      else none) ∧
    (headerMsg ≠ markersMsg ∧ headerMsg ≠ maxFilesMsg files.length c.max_files ∧
     headerMsg ≠ missingFilesMsg (undeclaredPaths patch files) ∧
     markersMsg ≠ maxFilesMsg files.length c.max_files ∧
     markersMsg ≠ missingFilesMsg (undeclaredPaths patch files) ∧
     maxFilesMsg files.length c.max_files ≠ missingFilesMsg (undeclaredPaths patch files)) := by
  have hd2 : ∀ n m : Nat, headerMsg ≠ maxFilesMsg n m := fun n m =>
    string_ne_of_getD _ _ 7 (by rw [maxFilesMsg_getD7]; decide)
  have hd3 : ∀ ms, headerMsg ≠ missingFilesMsg ms := fun ms =>
    string_ne_of_getD _ _ 6 (by rw [missingFilesMsg_getD6]; decide)
  have hd4 : ∀ n m : Nat, markersMsg ≠ maxFilesMsg n m := fun n m =>
    string_ne_of_getD _ _ 7 (by rw [maxFilesMsg_getD7]; decide)
  have hd5 : ∀ ms, markersMsg ≠ missingFilesMsg ms := fun ms =>
    string_ne_of_getD _ _ 6 (by rw [missingFilesMsg_getD6]; decide)
  have hd6 : ∀ (n m : Nat) (ms : List String), maxFilesMsg n m ≠ missingFilesMsg ms :=
    fun n m ms => string_ne_of_getD _ _ 6 (by rw [maxFilesMsg_getD6, missingFilesMsg_getD6]; decide)
  refine ⟨?_, ?_, by decide, hd2 _ _, hd3 _, hd4 _ _, hd5 _, hd6 _ _ _⟩
  · -- the acceptance condition
    simp only [validatePatch]
    cases h1 : "diff --git".toList.isPrefixOf (pyStrip patch.toList) with
    | false => simp
    | true =>
        cases h2 : (hasSubstring "+++".toList patch.toList &&
            hasSubstring "---".toList patch.toList &&
            hasSubstring "@@".toList patch.toList) with
        | false =>
            have hno : ¬(hasSubstring "+++".toList patch.toList = true ∧
                hasSubstring "---".toList patch.toList = true ∧
                hasSubstring "@@".toList patch.toList = true) := by
              rintro ⟨hb, hc2, hd⟩
              rw [hb, hc2, hd] at h2
              exact absurd h2 (by decide)
            constructor
            · intro h
              simp at h
            · rintro ⟨-, hbcd, -⟩
              exact absurd hbcd hno
        | true =>
            have hband := h2
            rw [Bool.and_eq_true, Bool.and_eq_true] at hband
            by_cases h3 : c.max_files < files.length
            · rw [if_neg (by decide), if_neg (by decide), if_pos h3]
              constructor
              · intro h
                simp at h
              · rintro ⟨-, -, hle, -⟩
                omega
            · rw [if_neg (by decide), if_neg (by decide), if_neg h3]
              cases h4 : (undeclaredPaths patch files).isEmpty with
              | false =>
                  have hnall : ¬∀ f ∈ patchBPaths patch, f ∈ files := by
                    intro hc
                    rw [(undeclaredPaths_eq_nil_iff patch files).mpr hc] at h4
                    exact absurd h4 (by decide)
                  rw [if_pos (by decide)]
                  constructor
                  · intro h
                    simp at h
                  · rintro ⟨-, -, -, hall⟩
                    exact absurd hall hnall
              | true =>
                  have hall : ∀ f ∈ patchBPaths patch, f ∈ files :=
                    (undeclaredPaths_eq_nil_iff patch files).mp (List.isEmpty_iff.mp h4)
                  rw [if_neg (by decide)]
                  constructor
                  · intro _
                    exact ⟨rfl, ⟨hband.1.1, hband.1.2, hband.2⟩, Nat.not_lt.mp h3, hall⟩
                  · intro _
                    rfl
  · -- the message of the first failing check
    simp only [validatePatch]
    cases h1 : "diff --git".toList.isPrefixOf (pyStrip patch.toList) with
    | false => simp
    | true =>
        cases h2 : (hasSubstring "+++".toList patch.toList &&
            hasSubstring "---".toList patch.toList &&
            hasSubstring "@@".toList patch.toList) with
        | false =>
            have hno : ¬(hasSubstring "+++".toList patch.toList = true ∧
                hasSubstring "---".toList patch.toList = true ∧
                hasSubstring "@@".toList patch.toList = true) := by
              rintro ⟨hb, hc2, hd⟩
              rw [hb, hc2, hd] at h2
              exact absurd h2 (by decide)
            rw [if_neg (not_not_intro rfl), if_pos hno]
            simp
        | true =>
            have hband := h2
            rw [Bool.and_eq_true, Bool.and_eq_true] at hband
            have hbcd : hasSubstring "+++".toList patch.toList = true ∧
                hasSubstring "---".toList patch.toList = true ∧
                hasSubstring "@@".toList patch.toList = true :=
              ⟨hband.1.1, hband.1.2, hband.2⟩
            by_cases h3 : c.max_files < files.length
            · rw [if_neg (by decide), if_neg (by decide), if_pos h3,
                if_neg (not_not_intro rfl), if_neg (not_not_intro hbcd),
                if_pos (Nat.not_le.mpr h3)]
            · cases h4 : (undeclaredPaths patch files).isEmpty with
              | false =>
                  have hnall : ¬∀ f ∈ patchBPaths patch, f ∈ files := by
                    intro hc
                    rw [(undeclaredPaths_eq_nil_iff patch files).mpr hc] at h4
                    exact absurd h4 (by decide)
                  rw [if_neg (by decide), if_neg (by decide), if_neg h3, if_pos (by decide),
                    if_neg (not_not_intro rfl), if_neg (not_not_intro hbcd),
                    if_neg (not_not_intro (Nat.not_lt.mp h3)), if_pos hnall]
              | true =>
                  have hall : ∀ f ∈ patchBPaths patch, f ∈ files :=
                    (undeclaredPaths_eq_nil_iff patch files).mp (List.isEmpty_iff.mp h4)
                  rw [if_neg (by decide), if_neg (by decide), if_neg h3, if_neg (by decide),
                    if_neg (not_not_intro rfl), if_neg (not_not_intro hbcd),
                    if_neg (not_not_intro (Nat.not_lt.mp h3)), if_neg (not_not_intro hall)]

/-- C4 counterexample: a patch whose text does not begin with the literal
`diff --git` token (it begins with a newline) is nonetheless accepted, because
the source strips surrounding whitespace before the header check; this
refutes the claim's acceptance condition as literally stated. -/
theorem validatePatch_accepts_leading_whitespace :
    (validatePatch "\ndiff --git a/x.py b/x.py\n--- a/x.py\n+++ b/x.py\n@@ -1 +1 @@\n"
        ["x.py"] ⟨3, ["package.json", "*.lock"], true⟩).1 = true ∧
    "diff --git".toList.isPrefixOf
      "\ndiff --git a/x.py b/x.py\n--- a/x.py\n+++ b/x.py\n@@ -1 +1 @@\n".toList = false := by
  constructor
  · decide
  · decide

/-! ### C10 — constraint fields beyond `max_files` are ignored -/

/-- C10: the validator's result depends only on the patch, the declared list,
and `max_files` — constraints differing only in `excluded_patterns` or
`preserve_style` validate identically — and a patch touching only the
dependency-lock file `poetry.lock` passes validation even under the default
excluded pattern `*.lock`. -/
theorem validatePatch_ignores_style_constraints :
    (∀ (patch : String) (files : List String) (m : Nat) (e₁ e₂ : List String) (s₁ s₂ : Bool),
      validatePatch patch files ⟨m, e₁, s₁⟩ = validatePatch patch files ⟨m, e₂, s₂⟩) ∧
    (validatePatch
        "diff --git a/poetry.lock b/poetry.lock\n--- a/poetry.lock\n+++ b/poetry.lock\n@@ -1 +1 @@\n"
        ["poetry.lock"] ⟨3, ["package.json", "*.lock"], true⟩).1 = true := by
  constructor
  · intro patch files m e₁ e₂ s₁ s₂
    rfl
  · decide

/-! ### C1 and C5 — the webhook endpoint's signature and event handling -/

/-- C1: the signature-validation call in `github_webhook` is commented out in
the source (webhook.py, lines 300-313).  With a configured secret, a
well-formed but necessarily incorrect header `sha256=0` (its hex part has one
digit, a correct header has 64 for every secret and body) is accepted and the
event is fully processed with a 200 response; a missing secret still yields
500 and a missing signature header 401. -/
theorem webhook_accepts_invalid_signature :
    (∀ secret body : List Nat,
      "sha256=0".toList ≠ "sha256=".toList ++ hmacSha256Hex secret body) ∧
    githubWebhook (some "not-a-real-secret") (some "sha256=0".toList) (some "pull_request")
        (.ok ⟨some "opened", some "octocat/hello-world", some 1⟩)
        (some "diff --git a/app/main.py b/app/main.py\n--- a/app/main.py\n+++ b/app/main.py\n@@ -1 +1 @@\n")
        [] none
      = .ok { status := "success", event := some "pull_request", action := some "opened",
              pr_processing := some { repo := some "octocat/hello-world", pr_number := some 1,
                                      files_changed := some ["app/main.py"],
                                      status := "success" },
              matched_spells := [], auto_generated_spell_id := none } ∧
    githubWebhook none (some "sha256=0".toList) (some "pull_request")
        (.ok ⟨some "opened", some "octocat/hello-world", some 1⟩) none [] none
      = .httpError 500 "Webhook secret not configured" ∧
    githubWebhook (some "not-a-real-secret") none (some "pull_request")
        (.ok ⟨some "opened", some "octocat/hello-world", some 1⟩) none [] none
      = .httpError 401 "Missing signature header" := by
  refine ⟨?_, by decide, by decide, by decide⟩
  intro secret body h
  have hlen := congrArg List.length h
  rw [List.length_append, hmacSha256Hex_length] at hlen
  exact absurd hlen (by decide)

/-- C5: a `push` event is routed into PR processing (webhook.py, line 360):
for a typical push payload, which carries no `pull_request` object, the
endpoint returns 200 with body status `success` and an empty matched list, but
`pr_processing` in the response is a non-null error outcome — not the null
outcome the claim (and the endpoint's own docstring and test suite) state. -/
theorem webhook_push_runs_pr_processing :
    githubWebhook (some "not-a-real-secret") (some "sha256=0".toList) (some "push")
        (.ok ⟨none, some "testuser/test-repo", none⟩) none [] none
      = .ok { status := "success", event := some "push", action := none,
              pr_processing := some { status := "error",
                                      error := some "Missing repository or PR number in payload" },
              matched_spells := [], auto_generated_spell_id := none } ∧
    some ({ status := "error",
            error := some "Missing repository or PR number in payload" } : PRResult) ≠ none := by
  exact ⟨by decide, by decide⟩

/-! ### C9 — auto-generated spells are reported as matches -/

/-- C9: when the matcher returns no spells and auto-generation produces spell
`genId`, the handler reports `genId` both in `auto_generated_spell_id` and as
the sole element of `matched_spells`, and the audit status derived for the run
is `success` rather than `partial_success`. -/
theorem webhook_autogen_counts_as_match (secret : String) (hsecret : secret ≠ "")
    (sig : List Char) (hsig : sig ≠ []) (action : Option String) (repo : String)
    (hrepo : repo ≠ "") (n : Int) (hn : n ≠ 0) (diff : String) (genId : Int) :
    githubWebhook (some secret) (some sig) (some "pull_request")
        (.ok ⟨action, some repo, some n⟩) (some diff) [] (some genId)
      = .ok { status := "success", event := some "pull_request", action := action,
              pr_processing := some { repo := some repo, pr_number := some n,
                                      files_changed := some (parseDiff diff),
                                      status := "success" },
              matched_spells := [genId], auto_generated_spell_id := some genId } ∧
    auditStatus (some { repo := some repo, pr_number := some n,
                        files_changed := some (parseDiff diff),
                        status := "success" }) [genId] = "success" := by
  have h1 : truthyStr (some secret) = true := by simp [truthyStr, hsecret]
  have h2 : truthyChars (some sig) = true := by simp [truthyChars, List.isEmpty_iff, hsig]
  have h3 : processPrEvent ⟨action, some repo, some n⟩ (some diff) =
      { repo := some repo, pr_number := some n, files_changed := some (parseDiff diff),
        status := "success" } := by
    simp [processPrEvent, truthyStr, truthyInt, hrepo, hn]
  constructor
  · simp [githubWebhook, h1, h2, h3]
  · simp [auditStatus, runErrorMessage, determineStatus, truthyStr]

/-- Witness for `webhook_autogen_counts_as_match` at concrete inputs. -/
theorem webhook_autogen_counts_as_match_witness :
    ("s3cret" : String) ≠ "" ∧ "sha256=0".toList ≠ ([] : List Char) ∧
    ("octocat/hello-world" : String) ≠ "" ∧ (1 : Int) ≠ 0 ∧
    (githubWebhook (some "s3cret") (some "sha256=0".toList) (some "pull_request")
        (.ok ⟨some "opened", some "octocat/hello-world", some 1⟩)
        (some "diff --git a/app/main.py b/app/main.py\n") [] (some 42)
      = .ok { status := "success", event := some "pull_request", action := some "opened",
              pr_processing := some { repo := some "octocat/hello-world", pr_number := some 1,
                                      files_changed :=
                                        some (parseDiff "diff --git a/app/main.py b/app/main.py\n"),
                                      status := "success" },
              matched_spells := [42], auto_generated_spell_id := some 42 } ∧
     auditStatus (some { repo := some "octocat/hello-world", pr_number := some 1,
                         files_changed :=
                           some (parseDiff "diff --git a/app/main.py b/app/main.py\n"),
                         status := "success" }) [42] = "success") :=
  ⟨by decide, by decide, by decide, by decide,
   webhook_autogen_counts_as_match "s3cret" (by decide) _ (by decide) _ _ (by decide) _
     (by decide) _ _⟩

/-! ### C8 — uniqueness-violation handling in spell generation -/

/-- C8 counterexample: with auto-creation enabled, a missing registration, and
a racing repository insert that raises a uniqueness violation, the violation
does leave the inner insert `try` block of `_get_or_create_repository` (second
conjunct), but `generate_spell` still returns an ordinary "no identifier
produced" result (`.ok none`) rather than letting the exception escape —
refuting the claim that the violation is fatal for the generation run. -/
theorem generateSpell_swallows_race :
    generateSpell true
        (some { repo := some "octocat/hello-world", pr_number := some 1,
                files_changed := some ["app/main.py"], status := "success" })
        none none (.ok 7) (.error .integrityViolation) (.ok 99)
      = .ok none ∧
    getOrCreateRepositoryBody none (some 7) (.error .integrityViolation)
      = .error .integrityViolation :=
  ⟨rfl, rfl⟩

/-- C8 (amended): when implicit repository creation races into a uniqueness
violation, the violation is re-raised by the insert's inner handler but caught
by `_get_or_create_repository`'s own catch-all handler, which yields no
repository id; `generate_spell` therefore returns a "no identifier produced"
result, and no exception escapes spell generation. -/
theorem generateSpell_race_yields_none (prCtx : PRResult) (h : truthyStr prCtx.repo = true)
    (existingUser : Option Int) (insertUser insertSpell : Except DbError Int) :
    generateSpell true (some prCtx) none existingUser insertUser
        (.error .integrityViolation) insertSpell = .ok none := by
  cases existingUser with
  | some uid =>
      simp [generateSpell, getOrCreateRepository, getOrCreateRepositoryBody,
        getOrCreateSystemUser, getOrCreateSystemUserBody, h]
  | none =>
      cases insertUser with
      | ok uid =>
          simp [generateSpell, getOrCreateRepository, getOrCreateRepositoryBody,
            getOrCreateSystemUser, getOrCreateSystemUserBody, h]
      | error e =>
          simp [generateSpell, getOrCreateRepository, getOrCreateRepositoryBody,
            getOrCreateSystemUser, getOrCreateSystemUserBody, h]

/-- Witness for `generateSpell_race_yields_none` at concrete inputs. -/
theorem generateSpell_race_yields_none_witness :
    truthyStr ({ repo := some "octocat/hello-world", pr_number := some 1,
                 files_changed := some ["app/main.py"],
                 status := "success" } : PRResult).repo = true ∧
    generateSpell true
        (some { repo := some "octocat/hello-world", pr_number := some 1,
                files_changed := some ["app/main.py"], status := "success" })
        none (some 3) (.ok 7) (.error .integrityViolation) (.ok 99) = .ok none :=
  ⟨by decide, generateSpell_race_yields_none _ (by decide) _ _ _⟩

end Grimoire
